import Mathlib

/-!
Shallow embedding of `ms_one/push_to_github.py`, a single-file command-line
tool that pushes the current directory to GitHub.  External command execution
is modelled by an oracle `Sys : String → Spawn` mapping each command line to
its outcome (the subprocess completing with an exit code and output texts, or
the spawn itself failing at the OS level).  Each flow threads a trace of the
command lines handed to the subprocess facility, and an uncaught Python
exception is modelled by `Except.error`.
-/

namespace PushToGithub

/-- A `subprocess.CompletedProcess` as seen by the script: exit code and the
captured output texts (`none` when `capture_output` was false, mirroring
Python's `None`). -/
structure CmdResult where
  returncode : Nat
  stdout : Option String
  stderr : Option String
deriving Repr, DecidableEq

/-- Outcome the operating system gives one command line: either the subprocess
ran to completion with an exit code and output texts, or execution itself
could not start (Python raises `OSError`, which `run_command` does not catch). -/
inductive Spawn where
  | ran (returncode : Nat) (stdout stderr : String)
  | failedToStart
deriving Repr, DecidableEq

/-- The environment: outcome of each command line.  The script never runs the
same command line twice in one invocation, so a per-string oracle is exact. -/
abbrev Sys := String → Spawn

/-- Python's whitespace set for `str.strip()` (ASCII part: space, tab,
newline, carriage return, vertical tab, form feed). -/
def isPyWhitespace (c : Char) : Bool :=
  c == ' ' || c == '\t' || c == '\n' || c == '\r' || c == '\x0b' || c == '\x0c'

/-- Python `str.strip()`: drop leading and trailing whitespace. -/
def pyStrip (s : String) : String :=
  ⟨((s.data.dropWhile isPyWhitespace).reverse.dropWhile isPyWhitespace).reverse⟩

/-- ASCII lower-casing of one character (all inputs this script lower-cases
are ASCII). -/
def pyLowerChar (c : Char) : Char :=
  if 'A' ≤ c && c ≤ 'Z' then Char.ofNat (c.toNat + 32) else c

/-- Python `str.lower()` restricted to ASCII. -/
def pyLower (s : String) : String :=
  ⟨s.data.map pyLowerChar⟩

/-- Python's `str(e)` for a `CalledProcessError` (printed when `capture_output`
is false). -/
def calledProcessErrorText (command : String) (rc : Nat) : String :=
  "Command " ++ command ++ " returned non-zero exit status " ++ toString rc ++ "."

/-- `run_command` (lines 13–27): run `command` through the shell; on
`CalledProcessError` (raised iff `check` and the exit code is non-zero) print
two diagnostic lines and return `None`; any other exception (e.g. `OSError`
when the spawn fails) propagates, modelled by `Except.error`.  The second
component is the list of diagnostic lines printed by this call. -/
def run_command (sys : Sys) (command : String) (check capture_output : Bool) :
    Except Unit (Option CmdResult) × List String :=
  match sys command with
  | .failedToStart => (.error (), [])
  | .ran rc out err =>
    if check && rc != 0 then
      (.ok none,
        ["Error executing command: " ++ command,
         "Error: " ++ (if capture_output then err else calledProcessErrorText command rc)])
    else
      (.ok (some ⟨rc, if capture_output then some out else none,
                      if capture_output then some err else none⟩), [])

/-- `run_command` as used inside the flows: same result, and the command line
is appended to the running trace of commands handed to the subprocess
facility (the printed diagnostics are not tracked by the flows). -/
def runC (sys : Sys) (command : String) (check capture_output : Bool)
    (tr : List String) : Except Unit (Option CmdResult) × List String :=
  ((run_command sys command check capture_output).1, tr ++ [command])

/-- Description default (lines 44–46): empty after trimming means the fixed
placeholder text. -/
def default_description (desc_input : String) : String :=
  if pyStrip desc_input == "" then "Created via automated script" else pyStrip desc_input

/-- Visibility normalisation (lines 48–50): trimmed, lower-cased, and anything
other than `public`/`private` silently becomes `private`. -/
def effective_visibility (vis_input : String) : String :=
  let v := pyLower (pyStrip vis_input)
  if v == "public" || v == "private" then v else "private"

/-- `get_user_input` (lines 35–52): `none` models `sys.exit(1)` on an empty
trimmed name; otherwise the processed `(repo_name, description, visibility)`
triple. -/
def get_user_input (name_input desc_input vis_input : String) :
    Option (String × String × String) :=
  let repo_name := pyStrip name_input
  if repo_name == "" then none
  else some (repo_name, default_description desc_input, effective_visibility vis_input)

/-- The commit command line `git commit -m "<msg>"` (lines 81 and 130). -/
def git_commit_cmd (msg : String) : String :=
  "git commit -m \"" ++ msg ++ "\""

/-- The hosting-CLI creation command line (line 91):
`gh repo create <name> <flag> --source=. --description "<desc>" --push`. -/
def gh_repo_create_cmd (repo_name description visibility : String) : String :=
  "gh repo create " ++ repo_name ++ " "
    ++ (if visibility == "public" then "--public" else "--private")
    ++ " --source=. --description \"" ++ description ++ "\" --push"

/-- Python truthiness of `result and result.returncode == 0` for an optional
command result (lines 94, 116, 137, 144). -/
def resultOk : Option CmdResult → Bool
  | some res => res.returncode == 0
  | none => false

/-- `initialize_and_push_new_repo` (lines 55–101).  `ts` is the
`datetime.now()` timestamp text.  The `.gitignore` creation (lines 65–71) is a
plain file write with no subprocess, so it leaves the command trace unchanged
and is not modelled further.  Guarded steps abort on a falsy (`None`) result;
the branch rename's result is discarded; the creation command's result decides
the returned success flag. -/
def initialize_and_push_new_repo (sys : Sys)
    (ts repo_name description visibility : String) (tr : List String) :
    Except Unit Bool × List String :=
  match runC sys "git init" true false tr with
  | (.error e, tr) => (.error e, tr)
  | (.ok none, tr) => (.ok false, tr)
  | (.ok (some _), tr) =>
    match runC sys "git add ." true false tr with
    | (.error e, tr) => (.error e, tr)
    | (.ok none, tr) => (.ok false, tr)
    | (.ok (some _), tr) =>
      match runC sys (git_commit_cmd ("Initial commit - " ++ ts)) true false tr with
      | (.error e, tr) => (.error e, tr)
      | (.ok none, tr) => (.ok false, tr)
      | (.ok (some _), tr) =>
        match runC sys "git branch -M main" true false tr with
        | (.error e, tr) => (.error e, tr)
        | (.ok _, tr) =>
          match runC sys (gh_repo_create_cmd repo_name description visibility) true true tr with
          | (.error e, tr) => (.error e, tr)
          | (.ok r, tr) => (.ok (resultOk r), tr)

/-- `not status or not status.stdout.strip()` (line 110): an absent result, or
captured standard output that is empty after stripping.  A `some` result from a
captured call always carries `some` stdout; the `none`-stdout arm is
unreachable there (Python would raise on `None.strip()`). -/
def statusClean : Option CmdResult → Bool
  | none => true
  | some res =>
    match res.stdout with
    | none => true
    | some s => pyStrip s == ""

/-- `push_existing_repo` (lines 104–150).  Clean (or failed) status query:
best-effort `git push` and unconditional success.  Dirty status: guarded
stage and commit, then `git push origin main` with a plain `git push`
fallback, succeeding iff either push exits zero. -/
def push_existing_repo (sys : Sys) (ts : String) (tr : List String) :
    Except Unit Bool × List String :=
  match runC sys "git status --porcelain" true true tr with
  | (.error e, tr) => (.error e, tr)
  | (.ok status, tr) =>
    if statusClean status then
      match runC sys "git push" false true tr with
      | (.error e, tr) => (.error e, tr)
      | (.ok _, tr) => (.ok true, tr)
    else
      match runC sys "git add ." true false tr with
      | (.error e, tr) => (.error e, tr)
      | (.ok none, tr) => (.ok false, tr)
      | (.ok (some _), tr) =>
        match runC sys (git_commit_cmd ("Update - " ++ ts)) true false tr with
        | (.error e, tr) => (.error e, tr)
        | (.ok none, tr) => (.ok false, tr)
        | (.ok (some _), tr) =>
          match runC sys "git push origin main" false true tr with
          | (.error e, tr) => (.error e, tr)
          | (.ok r1, tr) =>
            if resultOk r1 then (.ok true, tr)
            else
              match runC sys "git push" false true tr with
              | (.error e, tr) => (.error e, tr)
              | (.ok r2, tr) => (.ok (resultOk r2), tr)

/-- How the process ends: clean termination with an exit status (normal return
of `main` gives 0, `sys.exit(1)` gives 1), or an uncaught exception. -/
inductive ProcExit where
  | exited (code : Nat)
  | crashed
deriving Repr, DecidableEq

/-- `not gh_check or not gh_check.stdout.strip()` (line 161): the hosting CLI
counts as missing when the check result is absent or its captured standard
output strips to empty. -/
def ghCheckMissing : Option CmdResult → Bool
  | none => true
  | some res =>
    match res.stdout with
    | none => true
    | some s => pyStrip s == ""

/-- `main` (lines 153–179): probe for the hosting CLI with `which gh`
(unguarded, captured) and exit 1 when it is missing; otherwise dispatch on
`is_git_initialized()` (the `git_initialized` argument, `os.path.isdir('.git')`
in the source) to the existing- or new-repository flow, and exit 0 on flow
success, 1 on flow failure or an empty repository name. -/
def main (sys : Sys) (git_initialized : Bool)
    (name_input desc_input vis_input ts : String) : ProcExit × List String :=
  match runC sys "which gh" false true [] with
  | (.error _, tr) => (.crashed, tr)
  | (.ok gh_check, tr) =>
    if ghCheckMissing gh_check then (.exited 1, tr)
    else if git_initialized then
      match push_existing_repo sys ts tr with
      | (.error _, tr) => (.crashed, tr)
      | (.ok success, tr) => ((if success then .exited 0 else .exited 1), tr)
    else
      match get_user_input name_input desc_input vis_input with
      | none => (.exited 1, tr)
      | some (repo_name, description, visibility) =>
        match initialize_and_push_new_repo sys ts repo_name description visibility tr with
        | (.error _, tr) => (.crashed, tr)
        | (.ok success, tr) => ((if success then .exited 0 else .exited 1), tr)

/-- Naive shell word splitting: spaces separate words except inside a
double-quoted region; the quotes themselves are dropped.  Used to talk about
the argument structure the shell derives from an issued command line. -/
def shellWordsAux : List Char → Bool → String → List String → List String
  | [], _, cur, acc => if cur == "" then acc else acc ++ [cur]
  | c :: cs, inQ, cur, acc =>
    if c == '\x22' then shellWordsAux cs (!inQ) cur acc
    else if c == ' ' && !inQ then
      (if cur == "" then shellWordsAux cs inQ "" acc
       else shellWordsAux cs inQ "" (acc ++ [cur]))
    else shellWordsAux cs inQ (cur.push c) acc

/-- Split a command line into shell words (naive double-quote model). -/
def shellWords (s : String) : List String :=
  shellWordsAux s.data false "" []

/-! Concrete environments used to instantiate the theorems below. -/

/-- Every command spawns and exits zero; the hosting-CLI probe reports a path. -/
def sysAllOk : Sys := fun c =>
  if c == "which gh" then .ran 0 "/usr/bin/gh" "" else .ran 0 "" ""

/-- Dirty working tree and a failing `git add .`; everything else succeeds. -/
def sysDirtyAddFail : Sys := fun c =>
  if c == "which gh" then .ran 0 "/usr/bin/gh" ""
  else if c == "git status --porcelain" then .ran 0 " M file.txt" ""
  else if c == "git add ." then .ran 1 "" "add failed"
  else .ran 0 "" ""

/-- Clean working tree and a failing best-effort `git push`. -/
def sysCleanPushFail : Sys := fun c =>
  if c == "which gh" then .ran 0 "/usr/bin/gh" ""
  else if c == "git status --porcelain" then .ran 0 "" ""
  else if c == "git push" then .ran 1 "" "no remote"
  else .ran 0 "" ""

/-- Dirty tree, successful stage and commit, failing qualified push, succeeding
plain push. -/
def sysDirtyFallback : Sys := fun c =>
  if c == "which gh" then .ran 0 "/usr/bin/gh" ""
  else if c == "git status --porcelain" then .ran 0 " M file.txt" ""
  else if c == "git push origin main" then .ran 1 "" "rejected"
  else .ran 0 "" ""

/-- The status query itself exits non-zero; everything else succeeds. -/
def sysStatusFail : Sys := fun c =>
  if c == "which gh" then .ran 0 "/usr/bin/gh" ""
  else if c == "git status --porcelain" then .ran 128 "" "fatal: not a git repository"
  else .ran 0 "" ""

/-- The branch rename exits non-zero; everything else succeeds. -/
def sysBranchFail : Sys := fun c =>
  if c == "which gh" then .ran 0 "/usr/bin/gh" ""
  else if c == "git branch -M main" then .ran 1 "" "branch error"
  else .ran 0 "" ""

/-- No command can even start (the OS-level spawn fails). -/
def sysSpawnFail : Sys := fun _ => .failedToStart

/-! Helper lemmas: the variable command lines built by the script are distinct
from the fixed command lines it also issues. -/

/-- A commit command line is never the plain push command line. -/
theorem git_commit_cmd_ne_push (m : String) : git_commit_cmd m ≠ "git push" := by
  intro h
  have hd := congrArg String.data h
  simp [git_commit_cmd, String.data_append] at hd

/-- A commit command line is never the qualified push command line. -/
theorem git_commit_cmd_ne_push_origin (m : String) :
    git_commit_cmd m ≠ "git push origin main" := by
  intro h
  have hd := congrArg String.data h
  simp [git_commit_cmd, String.data_append] at hd

/-- A commit command line is never the hosting-CLI probe. -/
theorem git_commit_cmd_ne_which (m : String) : git_commit_cmd m ≠ "which gh" := by
  intro h
  have hd := congrArg String.data h
  simp [git_commit_cmd, String.data_append] at hd

/-- A commit command line is never the status query. -/
theorem git_commit_cmd_ne_status (m : String) :
    git_commit_cmd m ≠ "git status --porcelain" := by
  intro h
  have hd := congrArg String.data h
  simp [git_commit_cmd, String.data_append] at hd

/-- The creation command line is never a commit command line. -/
theorem gh_cmd_ne_commit (n d v m : String) :
    gh_repo_create_cmd n d v ≠ git_commit_cmd m := by
  intro h
  have hd := congrArg String.data h
  simp [gh_repo_create_cmd, git_commit_cmd, String.data_append] at hd

/-- The creation command line is never the hosting-CLI probe. -/
theorem gh_cmd_ne_which (n d v : String) : gh_repo_create_cmd n d v ≠ "which gh" := by
  intro h
  have hd := congrArg String.data h
  simp [gh_repo_create_cmd, String.data_append] at hd

/-- The creation command line is never `git init`. -/
theorem gh_cmd_ne_init (n d v : String) : gh_repo_create_cmd n d v ≠ "git init" := by
  intro h
  have hd := congrArg String.data h
  simp [gh_repo_create_cmd, String.data_append] at hd

/-- The creation command line is never `git add .`. -/
theorem gh_cmd_ne_add (n d v : String) : gh_repo_create_cmd n d v ≠ "git add ." := by
  intro h
  have hd := congrArg String.data h
  simp [gh_repo_create_cmd, String.data_append] at hd

/-- The creation command line is never the branch rename. -/
theorem gh_cmd_ne_branch (n d v : String) :
    gh_repo_create_cmd n d v ≠ "git branch -M main" := by
  intro h
  have hd := congrArg String.data h
  simp [gh_repo_create_cmd, String.data_append] at hd

/-- Every creation command line ends in the ` --push` flag. -/
theorem gh_cmd_push_split (n d v : String) :
    ∃ pre, gh_repo_create_cmd n d v = pre ++ " --push" := by
  refine ⟨"gh repo create " ++ n ++ " "
    ++ (if v == "public" then "--public" else "--private")
    ++ " --source=. --description \"" ++ d ++ "\"", ?_⟩
  have h2 : "\"" ++ " --push" = "\" --push" := rfl
  simp [gh_repo_create_cmd, String.append_assoc, h2]

/-- C1: starting with no version-control metadata, when the hosting-CLI probe
finds `gh`, the trimmed name is non-empty, and every guarded command —
`git init`, `git add .`, the initial commit, and the `gh repo create`
invocation — exits zero (the best-effort branch rename completing with any
exit code `brc`), the process ends with exit status 0 and the command trace
contains the hosting-CLI creation command exactly once, with the `--push` flag
present on its command line. -/
theorem C1_new_repo_success (sys : Sys) (name_input desc_input vis_input ts : String)
    (wrc brc : Nat) (wo we io ie ao ae co ce bo be go ge : String)
    (hwhich : sys "which gh" = .ran wrc wo we)
    (hwo : (pyStrip wo == "") = false)
    (hname : (pyStrip name_input == "") = false)
    (hinit : sys "git init" = .ran 0 io ie)
    (hadd : sys "git add ." = .ran 0 ao ae)
    (hcommit : sys (git_commit_cmd ("Initial commit - " ++ ts)) = .ran 0 co ce)
    (hbranch : sys "git branch -M main" = .ran brc bo be)
    (hgh : sys (gh_repo_create_cmd (pyStrip name_input) (default_description desc_input)
        (effective_visibility vis_input)) = .ran 0 go ge) :
    main sys false name_input desc_input vis_input ts =
      (.exited 0,
       ["which gh", "git init", "git add .",
        git_commit_cmd ("Initial commit - " ++ ts), "git branch -M main",
        gh_repo_create_cmd (pyStrip name_input) (default_description desc_input)
          (effective_visibility vis_input)]) ∧
    List.count (gh_repo_create_cmd (pyStrip name_input) (default_description desc_input)
        (effective_visibility vis_input))
      (main sys false name_input desc_input vis_input ts).2 = 1 ∧
    (∃ pre, gh_repo_create_cmd (pyStrip name_input) (default_description desc_input)
        (effective_visibility vis_input) = pre ++ " --push") := by
  have hmain : main sys false name_input desc_input vis_input ts =
      (.exited 0,
       ["which gh", "git init", "git add .",
        git_commit_cmd ("Initial commit - " ++ ts), "git branch -M main",
        gh_repo_create_cmd (pyStrip name_input) (default_description desc_input)
          (effective_visibility vis_input)]) := by
    by_cases hb : brc = 0 <;>
      simp [main, runC, run_command, get_user_input, initialize_and_push_new_repo,
            ghCheckMissing, resultOk, hwhich, hwo, hname, hinit, hadd, hcommit,
            hbranch, hgh, hb]
  refine ⟨hmain, ?_, gh_cmd_push_split _ _ _⟩
  rw [hmain]
  simp [List.count_cons, beq_iff_eq,
        gh_cmd_ne_which (pyStrip name_input) (default_description desc_input)
          (effective_visibility vis_input),
        gh_cmd_ne_init (pyStrip name_input) (default_description desc_input)
          (effective_visibility vis_input),
        gh_cmd_ne_add (pyStrip name_input) (default_description desc_input)
          (effective_visibility vis_input),
        gh_cmd_ne_commit (pyStrip name_input) (default_description desc_input)
          (effective_visibility vis_input) ("Initial commit - " ++ ts),
        gh_cmd_ne_branch (pyStrip name_input) (default_description desc_input)
          (effective_visibility vis_input)]

/-- Witness for C1 at a fully concrete environment and inputs. -/
theorem C1_new_repo_success_witness :
    main sysAllOk false "proj" "" "" "ts0" =
      (.exited 0,
       ["which gh", "git init", "git add .",
        git_commit_cmd ("Initial commit - " ++ "ts0"), "git branch -M main",
        gh_repo_create_cmd (pyStrip "proj") (default_description "")
          (effective_visibility "")]) ∧
    List.count (gh_repo_create_cmd (pyStrip "proj") (default_description "")
        (effective_visibility ""))
      (main sysAllOk false "proj" "" "" "ts0").2 = 1 ∧
    (∃ pre, gh_repo_create_cmd (pyStrip "proj") (default_description "")
        (effective_visibility "") = pre ++ " --push") :=
  C1_new_repo_success sysAllOk "proj" "" "" "ts0" 0 0
    "/usr/bin/gh" "" "" "" "" "" "" "" "" "" "" ""
    rfl (by decide) (by decide) rfl rfl rfl rfl rfl

/-- C2 (counterexample): the claim says the process terminates before any
external command is executed, but on an all-whitespace name the hosting-CLI
presence probe `which gh` has already been executed: the trace at the exit is
`["which gh"]`, not empty. -/
theorem C2_empty_name_counterexample :
    main sysAllOk false "   " "d" "v" "ts0" = (.exited 1, ["which gh"]) ∧
    (main sysAllOk false "   " "d" "v" "ts0").2 ≠ ([] : List String) := by
  exact ⟨by decide, by decide⟩

/-- C2 (amended): for every name input whose trimmed value is empty, the
process terminates with exit status 1 before any version-control or
repository-creation command is executed; exactly one external command, the
hosting-CLI presence probe `which gh`, has run at that point. -/
theorem C2_empty_name_amended (sys : Sys)
    (name_input desc_input vis_input ts : String) (wrc : Nat) (wo we : String)
    (hwhich : sys "which gh" = .ran wrc wo we)
    (hname : (pyStrip name_input == "") = true) :
    (main sys false name_input desc_input vis_input ts).1 = .exited 1 ∧
    (main sys false name_input desc_input vis_input ts).2 = ["which gh"] := by
  by_cases hwo : (pyStrip wo == "") = true
  · constructor <;>
      simp [main, runC, run_command, ghCheckMissing, hwhich, hwo]
  · rw [Bool.not_eq_true] at hwo
    constructor <;>
      simp [main, runC, run_command, ghCheckMissing, get_user_input, hwhich, hwo, hname]

/-- Witness for the amended C2 at a concrete environment and inputs. -/
theorem C2_empty_name_amended_witness :
    (main sysAllOk false "   " "d" "v" "ts0").1 = .exited 1 ∧
    (main sysAllOk false "   " "d" "v" "ts0").2 = ["which gh"] :=
  C2_empty_name_amended sysAllOk "   " "d" "v" "ts0" 0 "/usr/bin/gh" ""
    rfl (by decide)

/-- C3: with version-control metadata present and a dirty working-tree status,
if the staging command fails, or staging succeeds and the commit command
fails, the process ends with exit status 1 and no push command line is ever
invoked. -/
theorem C3_dirty_stage_commit_failure (sys : Sys) (n d v ts : String)
    (wrc : Nat) (wo we so se : String)
    (hwhich : sys "which gh" = .ran wrc wo we)
    (hwo : (pyStrip wo == "") = false)
    (hstatus : sys "git status --porcelain" = .ran 0 so se)
    (hdirty : (pyStrip so == "") = false)
    (hfail : (∃ arc ao ae, arc ≠ 0 ∧ sys "git add ." = .ran arc ao ae) ∨
             ((∃ ao ae, sys "git add ." = .ran 0 ao ae) ∧
              (∃ crc co ce, crc ≠ 0 ∧
                sys (git_commit_cmd ("Update - " ++ ts)) = .ran crc co ce))) :
    (main sys true n d v ts).1 = .exited 1 ∧
    ∀ c ∈ (main sys true n d v ts).2, c ≠ "git push" ∧ c ≠ "git push origin main" := by
  rcases hfail with ⟨arc, ao, ae, harc, hadd⟩ | ⟨⟨ao, ae, hadd⟩, crc, co, ce, hcrc, hcommit⟩
  · have hmain : main sys true n d v ts
        = (.exited 1, ["which gh", "git status --porcelain", "git add ."]) := by
      simp [main, runC, run_command, push_existing_repo, ghCheckMissing, statusClean,
            hwhich, hwo, hstatus, hdirty, hadd, harc]
    rw [hmain]
    exact ⟨rfl, by intro c hc; fin_cases hc <;> exact ⟨by decide, by decide⟩⟩
  · have hmain : main sys true n d v ts
        = (.exited 1, ["which gh", "git status --porcelain", "git add .",
                       git_commit_cmd ("Update - " ++ ts)]) := by
      simp [main, runC, run_command, push_existing_repo, ghCheckMissing, statusClean,
            hwhich, hwo, hstatus, hdirty, hadd, hcommit, hcrc]
    rw [hmain]
    refine ⟨rfl, ?_⟩
    intro c hc
    simp only [List.mem_cons, List.not_mem_nil, or_false] at hc
    rcases hc with rfl | rfl | rfl | rfl
    · exact ⟨by decide, by decide⟩
    · exact ⟨by decide, by decide⟩
    · exact ⟨by decide, by decide⟩
    · exact ⟨git_commit_cmd_ne_push _, git_commit_cmd_ne_push_origin _⟩

/-- Witness for C3: the staging command fails in a concrete dirty environment. -/
theorem C3_dirty_stage_commit_failure_witness :
    (main sysDirtyAddFail true "n" "d" "v" "ts0").1 = .exited 1 ∧
    ∀ c ∈ (main sysDirtyAddFail true "n" "d" "v" "ts0").2,
      c ≠ "git push" ∧ c ≠ "git push origin main" :=
  C3_dirty_stage_commit_failure sysDirtyAddFail "n" "d" "v" "ts0"
    0 "/usr/bin/gh" "" " M file.txt" ""
    rfl (by decide) rfl (by decide)
    (Or.inl ⟨1, "", "add failed", by decide, rfl⟩)

/-- C4: with version-control metadata present and a clean (empty) working-tree
status, the process ends with exit status 0 whatever exit code the best-effort
push has, and no commit command line is ever invoked. -/
theorem C4_clean_tree_success (sys : Sys) (n d v ts : String)
    (wrc prc : Nat) (wo we so se po pe : String)
    (hwhich : sys "which gh" = .ran wrc wo we)
    (hwo : (pyStrip wo == "") = false)
    (hstatus : sys "git status --porcelain" = .ran 0 so se)
    (hclean : (pyStrip so == "") = true)
    (hpush : sys "git push" = .ran prc po pe) :
    main sys true n d v ts
      = (.exited 0, ["which gh", "git status --porcelain", "git push"]) ∧
    ∀ m, git_commit_cmd m ∉ (main sys true n d v ts).2 := by
  have hmain : main sys true n d v ts
      = (.exited 0, ["which gh", "git status --porcelain", "git push"]) := by
    simp [main, runC, run_command, push_existing_repo, ghCheckMissing, statusClean,
          hwhich, hwo, hstatus, hclean, hpush]
  refine ⟨hmain, ?_⟩
  intro m
  rw [hmain]
  simp only [List.mem_cons, List.not_mem_nil, or_false]
  push_neg
  exact ⟨git_commit_cmd_ne_which m, git_commit_cmd_ne_status m, git_commit_cmd_ne_push m⟩

/-- Witness for C4: clean tree, failing best-effort push, still exit 0. -/
theorem C4_clean_tree_success_witness :
    main sysCleanPushFail true "n" "d" "v" "ts0"
      = (.exited 0, ["which gh", "git status --porcelain", "git push"]) ∧
    ∀ m, git_commit_cmd m ∉ (main sysCleanPushFail true "n" "d" "v" "ts0").2 :=
  C4_clean_tree_success sysCleanPushFail "n" "d" "v" "ts0"
    0 1 "/usr/bin/gh" "" "" "" "" "no remote"
    rfl (by decide) rfl (by decide) rfl

/-- C5: with version-control metadata present, a dirty tree, and successful
staging and commit, a qualified push (`git push origin main`) that exits
non-zero followed by an unqualified `git push` that exits zero ends the
process with exit status 0. -/
theorem C5_fallback_push_success (sys : Sys) (n d v ts : String)
    (wrc qrc : Nat) (wo we so se ao ae co ce qo qe uo ue : String)
    (hwhich : sys "which gh" = .ran wrc wo we)
    (hwo : (pyStrip wo == "") = false)
    (hstatus : sys "git status --porcelain" = .ran 0 so se)
    (hdirty : (pyStrip so == "") = false)
    (hadd : sys "git add ." = .ran 0 ao ae)
    (hcommit : sys (git_commit_cmd ("Update - " ++ ts)) = .ran 0 co ce)
    (hq : sys "git push origin main" = .ran qrc qo qe) (hqrc : qrc ≠ 0)
    (hu : sys "git push" = .ran 0 uo ue) :
    main sys true n d v ts =
      (.exited 0, ["which gh", "git status --porcelain", "git add .",
                   git_commit_cmd ("Update - " ++ ts), "git push origin main",
                   "git push"]) := by
  simp [main, runC, run_command, push_existing_repo, ghCheckMissing, statusClean, resultOk,
        hwhich, hwo, hstatus, hdirty, hadd, hcommit, hq, hqrc, hu]

/-- Witness for C5 at a concrete environment. -/
theorem C5_fallback_push_success_witness :
    main sysDirtyFallback true "n" "d" "v" "ts0" =
      (.exited 0, ["which gh", "git status --porcelain", "git add .",
                   git_commit_cmd ("Update - " ++ "ts0"), "git push origin main",
                   "git push"]) :=
  C5_fallback_push_success sysDirtyFallback "n" "d" "v" "ts0"
    0 1 "/usr/bin/gh" "" " M file.txt" "" "" "" "" "" "" "rejected" "" ""
    rfl (by decide) rfl (by decide) rfl rfl rfl (by decide) rfl

/-- C6: a visibility input whose trimmed, lower-cased value is neither
`public` nor `private` yields the effective visibility `private`, both as the
configurator's visibility computation and in the configurator's returned
triple; and the visibility computation always returns `public` or `private`. -/
theorem C6_visibility_defaults_private (desc_input vis_input : String)
    (hpub : (pyLower (pyStrip vis_input) == "public") = false)
    (hpriv : (pyLower (pyStrip vis_input) == "private") = false) :
    effective_visibility vis_input = "private" ∧
    (∀ name_input, (pyStrip name_input == "") = false →
      get_user_input name_input desc_input vis_input =
        some (pyStrip name_input, default_description desc_input, "private")) ∧
    (∀ w : String, effective_visibility w = "public" ∨ effective_visibility w = "private") := by
  have hv : effective_visibility vis_input = "private" := by
    simp [effective_visibility, hpub, hpriv]
  refine ⟨hv, ?_, ?_⟩
  · intro name_input hname
    simp [get_user_input, hname, hv]
  · intro w
    by_cases h1 : (pyLower (pyStrip w) == "public") = true
    · left
      simp [effective_visibility, h1]
      exact eq_of_beq h1
    · by_cases h2 : (pyLower (pyStrip w) == "private") = true
      · right
        simp [effective_visibility, h2]
        exact eq_of_beq h2
      · right
        rw [Bool.not_eq_true] at h1 h2
        simp [effective_visibility, h1, h2]

/-- Witness for C6 on the concrete visibility input `" PUB "`. -/
theorem C6_visibility_defaults_private_witness :
    effective_visibility " PUB " = "private" ∧
    (∀ name_input, (pyStrip name_input == "") = false →
      get_user_input name_input "d" " PUB " =
        some (pyStrip name_input, default_description "d", "private")) ∧
    (∀ w : String, effective_visibility w = "public" ∨ effective_visibility w = "private") :=
  C6_visibility_defaults_private "d" " PUB " (by decide) (by decide)

/-- C7 (counterexample): when execution itself cannot start, the Command
Runner does not print a diagnostic and return an absent result — the
exception propagates to the caller (only `CalledProcessError` is caught), so
the claim's "rather than propagating an exception" fails. -/
theorem C7_runner_counterexample :
    run_command sysSpawnFail "git init" true true = (.error (), []) ∧
    (run_command sysSpawnFail "git init" true true).1 ≠ .ok none ∧
    (run_command sysSpawnFail "git init" true true).2 = [] := by
  refine ⟨rfl, ?_, rfl⟩
  rw [show (run_command sysSpawnFail "git init" true true).1 = .error () from rfl]
  intro h
  exact Except.noConfusion h

/-- C7 (amended): for a subprocess that starts and completes, failure-checking
enabled plus a non-zero exit makes the Command Runner print the diagnostic
(the failing command line, then the captured error text when capturing,
otherwise the generic `CalledProcessError` text) and return an absent result;
with failure-checking disabled, every exit code is returned as a normal result
with no diagnostic.  (A failure to start instead propagates the exception, as
the counterexample shows.) -/
theorem C7_runner_amended (sys : Sys) (command : String) (capture_output : Bool)
    (rc : Nat) (out err : String)
    (h : sys command = .ran rc out err) :
    (rc ≠ 0 →
      run_command sys command true capture_output =
        (.ok none,
         ["Error executing command: " ++ command,
          "Error: " ++ (if capture_output then err
                        else calledProcessErrorText command rc)])) ∧
    run_command sys command false capture_output =
      (.ok (some ⟨rc, if capture_output then some out else none,
                      if capture_output then some err else none⟩), []) := by
  constructor
  · intro hrc
    simp [run_command, h, hrc]
  · simp [run_command, h]

/-- Witness for the amended C7 on a concrete failing command. -/
theorem C7_runner_amended_witness :
    run_command sysDirtyAddFail "git add ." true true =
      (.ok none, ["Error executing command: git add .", "Error: add failed"]) ∧
    run_command sysDirtyAddFail "git add ." false true =
      (.ok (some ⟨1, some "", some "add failed"⟩), []) :=
  ⟨(C7_runner_amended sysDirtyAddFail "git add ." true 1 "" "add failed" rfl).1
     (by decide),
   (C7_runner_amended sysDirtyAddFail "git add ." true 1 "" "add failed" rfl).2⟩

/-- C8: in the new-repository flow, the branch rename's exit code `brc` is
arbitrary yet the hosting-CLI creation command is still invoked (the trace is
the same six commands) and the process exit status depends only on the
creation command's exit code `grc` — the conclusion does not mention `brc`. -/
theorem C8_branch_rename_best_effort (sys : Sys) (n d v ts : String)
    (wrc brc grc : Nat) (wo we io ie ao ae co ce bo be go ge : String)
    (hwhich : sys "which gh" = .ran wrc wo we)
    (hwo : (pyStrip wo == "") = false)
    (hname : (pyStrip n == "") = false)
    (hinit : sys "git init" = .ran 0 io ie)
    (hadd : sys "git add ." = .ran 0 ao ae)
    (hcommit : sys (git_commit_cmd ("Initial commit - " ++ ts)) = .ran 0 co ce)
    (hbranch : sys "git branch -M main" = .ran brc bo be)
    (hgh : sys (gh_repo_create_cmd (pyStrip n) (default_description d)
        (effective_visibility v)) = .ran grc go ge) :
    (main sys false n d v ts).2 =
      ["which gh", "git init", "git add .",
       git_commit_cmd ("Initial commit - " ++ ts), "git branch -M main",
       gh_repo_create_cmd (pyStrip n) (default_description d) (effective_visibility v)] ∧
    (main sys false n d v ts).1 = .exited (if grc == 0 then 0 else 1) := by
  by_cases hb : brc = 0 <;> by_cases hg : grc = 0 <;>
    constructor <;>
      simp [main, runC, run_command, get_user_input, initialize_and_push_new_repo,
            ghCheckMissing, resultOk, hwhich, hwo, hname, hinit, hadd, hcommit,
            hbranch, hgh, hb, hg]

/-- Witness for C8: the branch rename exits 1 and yet creation runs and the
process succeeds. -/
theorem C8_branch_rename_best_effort_witness :
    (main sysBranchFail false "proj" "" "" "ts0").2 =
      ["which gh", "git init", "git add .",
       git_commit_cmd ("Initial commit - " ++ "ts0"), "git branch -M main",
       gh_repo_create_cmd (pyStrip "proj") (default_description "")
         (effective_visibility "")] ∧
    (main sysBranchFail false "proj" "" "" "ts0").1 =
      .exited (if (0 : Nat) == 0 then 0 else 1) :=
  C8_branch_rename_best_effort sysBranchFail "proj" "" "" "ts0" 0 1 0
    "/usr/bin/gh" "" "" "" "" "" "" "" "" "branch error" "" ""
    rfl (by decide) (by decide) rfl rfl rfl rfl rfl

/-- C9: in the existing-repository flow, a status query that itself exits
non-zero (its guarded invocation yields an absent result) is handled exactly
like a clean tree: the best-effort push is attempted, no commit command line
is ever invoked, and the process ends with exit status 0. -/
theorem C9_status_failure_as_clean (sys : Sys) (n d v ts : String)
    (wrc src prc : Nat) (wo we so se po pe : String)
    (hwhich : sys "which gh" = .ran wrc wo we)
    (hwo : (pyStrip wo == "") = false)
    (hstatus : sys "git status --porcelain" = .ran src so se) (hsrc : src ≠ 0)
    (hpush : sys "git push" = .ran prc po pe) :
    main sys true n d v ts
      = (.exited 0, ["which gh", "git status --porcelain", "git push"]) ∧
    ∀ m, git_commit_cmd m ∉ (main sys true n d v ts).2 := by
  have hmain : main sys true n d v ts
      = (.exited 0, ["which gh", "git status --porcelain", "git push"]) := by
    simp [main, runC, run_command, push_existing_repo, ghCheckMissing, statusClean,
          hwhich, hwo, hstatus, hsrc, hpush]
  refine ⟨hmain, ?_⟩
  intro m
  rw [hmain]
  simp only [List.mem_cons, List.not_mem_nil, or_false]
  push_neg
  exact ⟨git_commit_cmd_ne_which m, git_commit_cmd_ne_status m, git_commit_cmd_ne_push m⟩

/-- Witness for C9: the status query exits 128 and the run still pushes and
exits 0. -/
theorem C9_status_failure_as_clean_witness :
    main sysStatusFail true "n" "d" "v" "ts0"
      = (.exited 0, ["which gh", "git status --porcelain", "git push"]) ∧
    ∀ m, git_commit_cmd m ∉ (main sysStatusFail true "n" "d" "v" "ts0").2 :=
  C9_status_failure_as_clean sysStatusFail "n" "d" "v" "ts0"
    0 128 0 "/usr/bin/gh" "" "" "fatal: not a git repository" "" ""
    rfl (by decide) rfl (by decide) rfl

/-- C10: for every collected configuration, the new-repository flow issues the
hosting-CLI creation command line exactly as the template
`gh repo create <name> <flag> --source=. --description "<description>" --push`
with the name verbatim and unquoted and the description double-quoted; under
naive shell word splitting a well-formed name/description yields the expected
nine arguments, but a name with a space or a description with embedded double
quotes changes the argument structure of the issued command. -/
theorem C10_creation_command_line (sys : Sys)
    (ts repo_name description visibility : String)
    (brc grc : Nat) (io ie ao ae co ce bo be go ge : String)
    (hinit : sys "git init" = .ran 0 io ie)
    (hadd : sys "git add ." = .ran 0 ao ae)
    (hcommit : sys (git_commit_cmd ("Initial commit - " ++ ts)) = .ran 0 co ce)
    (hbranch : sys "git branch -M main" = .ran brc bo be)
    (hgh : sys (gh_repo_create_cmd repo_name description visibility) = .ran grc go ge) :
    (initialize_and_push_new_repo sys ts repo_name description visibility []).2 =
      ["git init", "git add .", git_commit_cmd ("Initial commit - " ++ ts),
       "git branch -M main",
       "gh repo create " ++ repo_name ++ " "
         ++ (if visibility == "public" then "--public" else "--private")
         ++ " --source=. --description \"" ++ description ++ "\" --push"] ∧
    shellWords (gh_repo_create_cmd "my-repo" "hello world" "public") =
      ["gh", "repo", "create", "my-repo", "--public", "--source=.",
       "--description", "hello world", "--push"] ∧
    shellWords (gh_repo_create_cmd "my repo" "hello" "private") =
      ["gh", "repo", "create", "my", "repo", "--private", "--source=.",
       "--description", "hello", "--push"] ∧
    shellWords (gh_repo_create_cmd "r" "a\" --push \"b" "private") =
      ["gh", "repo", "create", "r", "--private", "--source=.",
       "--description", "a", "--push", "b", "--push"] := by
  refine ⟨?_, by decide, by decide, by decide⟩
  rw [show ("gh repo create " ++ repo_name ++ " "
         ++ (if visibility == "public" then "--public" else "--private")
         ++ " --source=. --description \"" ++ description ++ "\" --push")
       = gh_repo_create_cmd repo_name description visibility from rfl]
  by_cases hb : brc = 0 <;> by_cases hg : grc = 0 <;>
    simp [initialize_and_push_new_repo, runC, run_command,
          hinit, hadd, hcommit, hbranch, hgh, hb, hg]

/-- Witness for C10 at a concrete configuration. -/
theorem C10_creation_command_line_witness :
    (initialize_and_push_new_repo sysAllOk "ts0" "proj" "cool" "public" []).2 =
      ["git init", "git add .", git_commit_cmd ("Initial commit - " ++ "ts0"),
       "git branch -M main",
       "gh repo create " ++ "proj" ++ " "
         ++ (if "public" == "public" then "--public" else "--private")
         ++ " --source=. --description \"" ++ "cool" ++ "\" --push"] ∧
    shellWords (gh_repo_create_cmd "my-repo" "hello world" "public") =
      ["gh", "repo", "create", "my-repo", "--public", "--source=.",
       "--description", "hello world", "--push"] ∧
    shellWords (gh_repo_create_cmd "my repo" "hello" "private") =
      ["gh", "repo", "create", "my", "repo", "--private", "--source=.",
       "--description", "hello", "--push"] ∧
    shellWords (gh_repo_create_cmd "r" "a\" --push \"b" "private") =
      ["gh", "repo", "create", "r", "--private", "--source=.",
       "--description", "a", "--push", "b", "--push"] :=
  C10_creation_command_line sysAllOk "ts0" "proj" "cool" "public" 0 0
    "" "" "" "" "" "" "" "" "" ""
    rfl rfl rfl rfl rfl

end PushToGithub
